import Mathlib

/-!
Verification of `src/newspaper/casperjs/get_page_content.js`.

The script is a CasperJS program:

  var casper = require('casper').create();
  var url = casper.cli.get(0);
  casper.start(url, function() { this.echo(this.getHTML()); });
  casper.run(function() {
      var _this = this;
      _this.page.close();
      setTimeout(function(){ phantom.exit(0); }, 0);
      phantom.onError = function(){};
      throw new Error('');
  });

We embed it as an event trace over an environment describing the hosting
engine's behaviour: the command-line arguments, whether the engine ever
invokes the navigation-completion callback, whether the navigation
succeeded at the network/HTTP level, and the HTML the document holds at
completion time.  The script itself never inspects the success flag or
the HTTP status; the trace it produces is a function only of the URL
argument, the completion flag and the rendered HTML.
-/

namespace GetPageContent

/-- Observable events of the script and its hosting engine.
`navStart` is `casper.start(url, ...)` (the URL is `Option` because
`casper.cli.get(0)` yields `undefined` when the argument is missing);
`navComplete` is the engine firing the page-load completion callback;
`echo` is `this.echo(s)`, which writes `s` plus a newline to stdout;
`pageClose` is `_this.page.close()`;
`scheduleExit n` is `setTimeout(function(){ phantom.exit(n); }, 0)`, a
deferred next-tick exit request, as opposed to `exitNow n`, an immediate
synchronous `phantom.exit(n)` call (which the script never issues);
`installOnErrorNoop` is `phantom.onError = function(){}`;
`throwErr m` is `throw new Error(m)`;
`readInput` is a read from standard input (never issued by the script). -/
inductive Event where
  | navStart (url : Option String)
  | navComplete
  | echo (s : String)
  | pageClose
  | scheduleExit (status : Nat)
  | exitNow (status : Nat)
  | installOnErrorNoop
  | throwErr (msg : String)
  | readInput
deriving DecidableEq, Repr

/-- Behaviour of the hosting engine for one invocation: the command-line
arguments, whether the engine ever fires the navigation-completion
callback, whether the navigation succeeded at the network level, the
HTTP status of the response, and the serialized HTML of the document at
the moment completion is signalled. -/
structure CasperEnv where
  args : List String
  navCompletes : Bool
  loadSuccess : Bool
  httpStatus : Nat
  renderedHTML : String
deriving DecidableEq, Repr

/-- Embedding of `casper.cli.get(0)`: the first positional argument, or
`none` (JavaScript `undefined`) when absent. -/
def cliGet0 (env : CasperEnv) : Option String :=
  env.args.get? 0

/-- Events emitted by the `casper.start` callback:
`this.echo(this.getHTML())`. -/
def startCallbackEvents (html : String) : List Event :=
  [Event.echo html]

/-- Events emitted by the `casper.run` callback, in source order:
`_this.page.close()`, then `setTimeout(function(){ phantom.exit(0); }, 0)`,
then `phantom.onError = function(){}`, then `throw new Error('')`. -/
def runCallbackEvents : List Event :=
  [Event.pageClose, Event.scheduleExit 0, Event.installOnErrorNoop,
   Event.throwErr ""]

/-- Full event trace of one invocation of the script.  `casper.start`
issues the navigation; if the engine fires the completion callback the
start callback runs (echoing the HTML), then `casper.run`'s
on-complete callback runs the shutdown sequence.  If the completion
callback never fires, nothing further happens. -/
def getPageContentTrace (env : CasperEnv) : List Event :=
  Event.navStart (cliGet0 env) ::
    (if env.navCompletes then
      Event.navComplete :: startCallbackEvents env.renderedHTML
        ++ runCallbackEvents
    else [])

/-- Raw chunks written to standard output, in order: `this.echo(s)`
writes `s` followed by a newline, untransformed; no other event writes. -/
def stdoutWrites (tr : List Event) : List String :=
  tr.foldr
    (fun e acc =>
      match e with
      | Event.echo s => (s ++ "\n") :: acc
      | _ => acc)
    []

/-- Event predicate: is this a request that leads to process exit
(closing the page, scheduling an engine exit, an immediate exit, or the
forcing throw)? -/
def isExitRequest : Event → Bool
  | Event.pageClose => true
  | Event.scheduleExit _ => true
  | Event.exitNow _ => true
  | Event.throwErr _ => true
  | _ => false

/-- Event predicate: an immediate (non-deferred) engine exit call. -/
def isImmediateExit : Event → Bool
  | Event.exitNow _ => true
  | _ => false

/-- Event predicate: a write of HTML to standard output. -/
def isEcho : Event → Bool
  | Event.echo _ => true
  | _ => false

/-- Event predicate: a navigation request. -/
def isNavStart : Event → Bool
  | Event.navStart _ => true
  | _ => false

/-- Event predicate: any step of the shutdown sequence. -/
def isShutdownStep : Event → Bool
  | Event.pageClose => true
  | Event.scheduleExit _ => true
  | Event.exitNow _ => true
  | Event.installOnErrorNoop => true
  | Event.throwErr _ => true
  | _ => false

/-- The handler value the script installs with
`phantom.onError = function(){}`: for any error message it emits no
events and reports nothing. -/
def installedOnErrorHandler : String → List Event :=
  fun _ => []

/-- Engine error-dispatch model: walking the trace, a thrown error is
reported to the caller unless the no-op `onError` handler has already
been installed, in which case it is swallowed.  Returns the list of
error messages that surface. -/
def reportedErrors (tr : List Event) : List String :=
  (tr.foldl
    (fun (acc : List String × Bool) e =>
      match e with
      | Event.installOnErrorNoop => (acc.1, true)
      | Event.throwErr m => (if acc.2 then acc.1 else acc.1 ++ [m], acc.2)
      | _ => acc)
    ([], false)).1

/-- The component's states: `loading` (navigation requested, completion
callback not yet fired) and `done` (completion callback fired, shutdown
initiated). -/
inductive FetchState where
  | loading
  | done
deriving DecidableEq, Repr

/-- State transition on an event: the engine's page-load completion
callback moves `loading` to `done`; every other event leaves the state
unchanged. -/
def stepState : FetchState → Event → FetchState
  | FetchState.loading, Event.navComplete => FetchState.done
  | s, _ => s

/-- State reached after processing a whole trace from `loading`. -/
def finalState (tr : List Event) : FetchState :=
  tr.foldl stepState FetchState.loading

/-- Number of state changes along a trace starting from `loading`. -/
def transitionCount (tr : List Event) : Nat :=
  (tr.foldl
    (fun (p : FetchState × Nat) e =>
      (stepState p.1 e, if stepState p.1 e = p.1 then p.2 else p.2 + 1))
    (FetchState.loading, 0)).2

/-- Sample engine behaviour used by the witness theorems: one URL
argument, completion callback fires, navigation succeeds with HTTP 200,
and the rendered document is a small HTML page. -/
def sampleEnv : CasperEnv :=
  { args := ["http://example.com/"]
    navCompletes := true
    loadSuccess := true
    httpStatus := 200
    renderedHTML := "<html><body>Hi</body></html>" }

/-- Sample engine behaviour for a failed navigation: same URL, the
completion callback still fires, but the load failed (status 0) and the
document is empty. -/
def sampleFailEnv : CasperEnv :=
  { args := ["http://example.com/"]
    navCompletes := true
    loadSuccess := false
    httpStatus := 0
    renderedHTML := "" }

/-- Sample engine behaviour where the completion callback never fires. -/
def sampleHangEnv : CasperEnv :=
  { args := ["http://example.com/"]
    navCompletes := false
    loadSuccess := false
    httpStatus := 0
    renderedHTML := "" }

/-- Sample engine behaviour with no command-line arguments. -/
def sampleNoArgEnv : CasperEnv :=
  { args := []
    navCompletes := true
    loadSuccess := true
    httpStatus := 200
    renderedHTML := "<html></html>" }

/-- Helper: the `done` state is absorbing. -/
theorem stepState_done (e : Event) :
    stepState FetchState.done e = FetchState.done := by
  cases e <;> rfl

/-- Helper: a state change happens only on `navComplete` out of
`loading`, landing in `done`. -/
theorem stepState_change (s : FetchState) (e : Event)
    (h : stepState s e ≠ s) :
    s = FetchState.loading ∧ e = Event.navComplete ∧
      stepState s e = FetchState.done := by
  cases s <;> cases e <;> simp [stepState] at h ⊢

/-- C1: on every run-completion path (the completion callback fires),
the trace ends with exactly the shutdown sequence, in order: page close,
a deferred engine exit scheduled with success status 0, installation of
the no-op error handler, then an unconditional throw of an empty-message
error; and no immediate (non-deferred) exit call occurs anywhere. -/
theorem shutdown_sequence_exact (env : CasperEnv)
    (h : env.navCompletes = true) :
    getPageContentTrace env =
      [Event.navStart (cliGet0 env), Event.navComplete,
       Event.echo env.renderedHTML]
        ++ [Event.pageClose, Event.scheduleExit 0,
            Event.installOnErrorNoop, Event.throwErr ""] ∧
    (∀ e ∈ getPageContentTrace env, isImmediateExit e = false) := by
  constructor
  · simp [getPageContentTrace, h, startCallbackEvents, runCallbackEvents]
  · intro e he
    simp [getPageContentTrace, h, startCallbackEvents,
      runCallbackEvents] at he
    rcases he with rfl | rfl | rfl | rfl | rfl | rfl | rfl <;>
      simp [isImmediateExit]

/-- Witness for C1 at the sample environment. -/
theorem shutdown_sequence_exact_witness :
    getPageContentTrace sampleEnv =
      [Event.navStart (cliGet0 sampleEnv), Event.navComplete,
       Event.echo sampleEnv.renderedHTML]
        ++ [Event.pageClose, Event.scheduleExit 0,
            Event.installOnErrorNoop, Event.throwErr ""] ∧
    (∀ e ∈ getPageContentTrace sampleEnv, isImmediateExit e = false) :=
  shutdown_sequence_exact sampleEnv rfl

/-- C2: when the navigation-completion callback fires, standard output
receives exactly one write, the serialized HTML obtained from the engine
followed by a newline, with no other transformation. -/
theorem echo_single_newline_blob (env : CasperEnv)
    (h : env.navCompletes = true) :
    stdoutWrites (getPageContentTrace env) = [env.renderedHTML ++ "\n"] ∧
    (getPageContentTrace env).filter isEcho =
      [Event.echo env.renderedHTML] := by
  constructor
  · simp [getPageContentTrace, h, startCallbackEvents, runCallbackEvents,
      stdoutWrites]
  · simp [getPageContentTrace, h, startCallbackEvents, runCallbackEvents,
      List.filter, isEcho]

/-- Witness for C2 at the sample environment. -/
theorem echo_single_newline_blob_witness :
    stdoutWrites (getPageContentTrace sampleEnv) =
      [sampleEnv.renderedHTML ++ "\n"] ∧
    (getPageContentTrace sampleEnv).filter isEcho =
      [Event.echo sampleEnv.renderedHTML] :=
  echo_single_newline_blob sampleEnv rfl

/-- C3: on every invocation, the URL handed to the engine's navigation
primitive is exactly the first positional command-line argument,
verbatim, and it is the very first event of the trace. -/
theorem url_passed_verbatim (env : CasperEnv) :
    (getPageContentTrace env).head? =
      some (Event.navStart (env.args.get? 0)) := by
  simp [getPageContentTrace, cliGet0]

/-- C4: in every execution in which the completion callback fires, the
HTML write sits strictly after the navigation-completion signal and
strictly before every process-exit request: the trace splits around the
echo, `navComplete` lies in the part before it, no exit request occurs
before it, and every exit request in the trace occurs after it. -/
theorem output_after_completion_before_exit (env : CasperEnv)
    (h : env.navCompletes = true) :
    ∃ pre post : List Event,
      getPageContentTrace env =
        pre ++ Event.echo env.renderedHTML :: post ∧
      Event.navComplete ∈ pre ∧
      (∀ e ∈ pre, isExitRequest e = false) ∧
      (∀ e ∈ getPageContentTrace env, isExitRequest e = true →
        e ∈ post) := by
  refine ⟨[Event.navStart (cliGet0 env), Event.navComplete],
    runCallbackEvents, ?_, ?_, ?_, ?_⟩
  · simp [getPageContentTrace, h, startCallbackEvents]
  · simp
  · intro e he
    simp at he
    rcases he with rfl | rfl <;> rfl
  · intro e he hex
    simp [getPageContentTrace, h, startCallbackEvents,
      runCallbackEvents] at he
    rcases he with rfl | rfl | rfl | rfl | rfl | rfl | rfl <;>
      simp [isExitRequest, runCallbackEvents] at hex ⊢

/-- Witness for C4 at the sample environment. -/
theorem output_after_completion_before_exit_witness :
    ∃ pre post : List Event,
      getPageContentTrace sampleEnv =
        pre ++ Event.echo sampleEnv.renderedHTML :: post ∧
      Event.navComplete ∈ pre ∧
      (∀ e ∈ pre, isExitRequest e = false) ∧
      (∀ e ∈ getPageContentTrace sampleEnv, isExitRequest e = true →
        e ∈ post) :=
  output_after_completion_before_exit sampleEnv rfl

/-- C5: the script distinguishes no error condition: its trace is a
function only of the argument list, the completion flag and the rendered
HTML, so a failed navigation (any load status, any HTTP status) yields
the same behaviour and the same shutdown sequence as a success; and the
trace contains exactly one navigation request (no retry). -/
theorem no_error_distinction (e1 e2 : CasperEnv)
    (ha : e1.args = e2.args) (hn : e1.navCompletes = e2.navCompletes)
    (hh : e1.renderedHTML = e2.renderedHTML) :
    getPageContentTrace e1 = getPageContentTrace e2 ∧
    (getPageContentTrace e1).filter isNavStart =
      [Event.navStart (e1.args.get? 0)] := by
  constructor
  · simp [getPageContentTrace, cliGet0, ha, hn, hh]
  · cases hc : e1.navCompletes <;>
      simp [getPageContentTrace, cliGet0, hc, startCallbackEvents,
        runCallbackEvents, List.filter, isNavStart]

/-- Witness for C5: the success environment and the failed-navigation
environment (different load success and HTTP status) produce the same
trace when they agree on arguments, completion and rendered HTML; here
instantiated at two concrete environments equal in those fields. -/
theorem no_error_distinction_witness :
    getPageContentTrace sampleEnv =
      getPageContentTrace
        { args := ["http://example.com/"]
          navCompletes := true
          loadSuccess := false
          httpStatus := 404
          renderedHTML := "<html><body>Hi</body></html>" } ∧
    (getPageContentTrace sampleEnv).filter isNavStart =
      [Event.navStart (sampleEnv.args.get? 0)] :=
  no_error_distinction sampleEnv
    { args := ["http://example.com/"]
      navCompletes := true
      loadSuccess := false
      httpStatus := 404
      renderedHTML := "<html><body>Hi</body></html>" }
    rfl rfl rfl

/-- C6: the handler installed during teardown is a no-op that swallows
every engine-reported error, and in every execution no error — including
the unconditional empty-message raise that forces termination — is ever
reported to a caller, because the throw occurs only after the no-op
handler is installed. -/
theorem teardown_swallows_errors (env : CasperEnv) :
    (∀ m, installedOnErrorHandler m = []) ∧
    reportedErrors (getPageContentTrace env) = [] := by
  refine ⟨fun m => rfl, ?_⟩
  cases hc : env.navCompletes <;>
    simp [getPageContentTrace, hc, startCallbackEvents, runCallbackEvents,
      reportedErrors]

/-- C7: the state space has exactly the two states `loading` and `done`;
in every execution where the completion callback fires, exactly one
state change occurs along the trace, it ends in `done`, any state change
is the `loading` to `done` step triggered by the completion callback,
and `done` admits no transition out (no way back to `loading` and no
distinct error state). -/
theorem state_machine_two_states_one_transition (env : CasperEnv)
    (h : env.navCompletes = true) :
    (∀ s : FetchState, s = FetchState.loading ∨ s = FetchState.done) ∧
    transitionCount (getPageContentTrace env) = 1 ∧
    finalState (getPageContentTrace env) = FetchState.done ∧
    (∀ s e, stepState s e ≠ s →
      s = FetchState.loading ∧ e = Event.navComplete ∧
        stepState s e = FetchState.done) ∧
    (∀ e, stepState FetchState.done e = FetchState.done) := by
  refine ⟨fun s => ?_, ?_, ?_, stepState_change, stepState_done⟩
  · cases s
    · exact Or.inl rfl
    · exact Or.inr rfl
  · simp [getPageContentTrace, h, startCallbackEvents, runCallbackEvents,
      transitionCount, stepState]
  · simp [getPageContentTrace, h, startCallbackEvents, runCallbackEvents,
      finalState, stepState]

/-- Witness for C7 at the sample environment. -/
theorem state_machine_two_states_one_transition_witness :
    (∀ s : FetchState, s = FetchState.loading ∨ s = FetchState.done) ∧
    transitionCount (getPageContentTrace sampleEnv) = 1 ∧
    finalState (getPageContentTrace sampleEnv) = FetchState.done ∧
    (∀ s e, stepState s e ≠ s →
      s = FetchState.loading ∧ e = Event.navComplete ∧
        stepState s e = FetchState.done) ∧
    (∀ e, stepState FetchState.done e = FetchState.done) :=
  state_machine_two_states_one_transition sampleEnv rfl

/-- C8: whenever the HTML has been echoed (some echo event is in the
trace), an exit request follows it in the trace, and the script never
reads additional input in any execution. -/
theorem terminates_after_output (env : CasperEnv)
    (h : ∃ s, Event.echo s ∈ getPageContentTrace env) :
    (∃ pre post : List Event,
      getPageContentTrace env =
        pre ++ Event.echo env.renderedHTML :: post ∧
      ∃ e ∈ post, isExitRequest e = true) ∧
    (∀ e ∈ getPageContentTrace env, e ≠ Event.readInput) := by
  have hc : env.navCompletes = true := by
    by_contra hne
    rw [Bool.not_eq_true] at hne
    rcases h with ⟨s, hs⟩
    simp [getPageContentTrace, hne] at hs
  constructor
  · refine ⟨[Event.navStart (cliGet0 env), Event.navComplete],
      runCallbackEvents, ?_, Event.pageClose, ?_, rfl⟩
    · simp [getPageContentTrace, hc, startCallbackEvents]
    · simp [runCallbackEvents]
  · intro e he
    simp [getPageContentTrace, hc, startCallbackEvents,
      runCallbackEvents] at he
    rcases he with rfl | rfl | rfl | rfl | rfl | rfl | rfl <;> simp

/-- Witness for C8 at the sample environment. -/
theorem terminates_after_output_witness :
    (∃ s, Event.echo s ∈ getPageContentTrace sampleEnv) ∧
    ((∃ pre post : List Event,
      getPageContentTrace sampleEnv =
        pre ++ Event.echo sampleEnv.renderedHTML :: post ∧
      ∃ e ∈ post, isExitRequest e = true) ∧
    (∀ e ∈ getPageContentTrace sampleEnv, e ≠ Event.readInput)) :=
  ⟨⟨"<html><body>Hi</body></html>", by
      simp [getPageContentTrace, sampleEnv, startCallbackEvents,
        runCallbackEvents]⟩,
    terminates_after_output sampleEnv
      ⟨"<html><body>Hi</body></html>", by
        simp [getPageContentTrace, sampleEnv, startCallbackEvents,
          runCallbackEvents]⟩⟩

/-- C9: if the engine never fires the navigation-completion callback,
the trace consists of the navigation request alone: no shutdown step —
no page close, no exit scheduling, no handler installation, no throw —
is ever reached, and no exit request is ever issued; the script has no
timeout or watchdog path. -/
theorem no_watchdog_hang (env : CasperEnv)
    (h : env.navCompletes = false) :
    getPageContentTrace env = [Event.navStart (env.args.get? 0)] ∧
    (∀ e ∈ getPageContentTrace env, isShutdownStep e = false) ∧
    (∀ e ∈ getPageContentTrace env, isExitRequest e = false) := by
  refine ⟨?_, ?_, ?_⟩
  · simp [getPageContentTrace, h, cliGet0]
  · intro e he
    simp [getPageContentTrace, h, cliGet0] at he
    subst he
    rfl
  · intro e he
    simp [getPageContentTrace, h, cliGet0] at he
    subst he
    rfl

/-- Witness for C9 at the hang environment. -/
theorem no_watchdog_hang_witness :
    getPageContentTrace sampleHangEnv =
      [Event.navStart (sampleHangEnv.args.get? 0)] ∧
    (∀ e ∈ getPageContentTrace sampleHangEnv, isShutdownStep e = false) ∧
    (∀ e ∈ getPageContentTrace sampleHangEnv, isExitRequest e = false) :=
  no_watchdog_hang sampleHangEnv rfl

/-- C10: with no positional argument, the missing value (`none`, the
embedding of JavaScript `undefined`) is passed directly to the
navigation primitive with no argument-count check, and the rest of the
flow is identical to that of an invocation with a URL present: the
traces agree beyond the first event whenever completion flag and
rendered HTML agree. -/
theorem missing_argument_same_flow (env env2 : CasperEnv)
    (ha : env.args = [])
    (hn : env.navCompletes = env2.navCompletes)
    (hh : env.renderedHTML = env2.renderedHTML) :
    (getPageContentTrace env).head? = some (Event.navStart none) ∧
    (getPageContentTrace env).tail = (getPageContentTrace env2).tail := by
  constructor
  · simp [getPageContentTrace, cliGet0, ha]
  · simp [getPageContentTrace, cliGet0, hn, hh]

/-- Witness for C10: the no-argument environment beside the sample
environment restricted to the same completion flag and HTML. -/
theorem missing_argument_same_flow_witness :
    (getPageContentTrace sampleNoArgEnv).head? =
      some (Event.navStart none) ∧
    (getPageContentTrace sampleNoArgEnv).tail =
      (getPageContentTrace
        { args := ["http://example.com/"]
          navCompletes := true
          loadSuccess := true
          httpStatus := 200
          renderedHTML := "<html></html>" }).tail :=
  missing_argument_same_flow sampleNoArgEnv
    { args := ["http://example.com/"]
      navCompletes := true
      loadSuccess := true
      httpStatus := 200
      renderedHTML := "<html></html>" }
    rfl rfl rfl

end GetPageContent
